import Mathlib

/-!
Verification development for the `website-server` e-commerce backend
(`src/server.js`).  The shipping estimator (haversine distance, tiered
shipping-cost policy, geocoding fallback) and the request handlers for
shipping quotes, Square payments and product deletion are embedded
shallowly: JavaScript numbers become exact rationals (for the linear
pricing arithmetic) or real numbers (for the trigonometric distance
formula), external collaborators (geocoding HTTP call, Square payments
API, MongoDB collections) become explicit function parameters and state,
and each Express handler becomes a total function from its inputs to a
response (plus the new store state where the handler can write).
-/

open Real

/-- JavaScript truthiness of an optional string request field:
`undefined` and the empty string are falsy (`!field` is true). -/
def truthy : Option String → Bool
  | none => false
  | some s => !(s == "")

/-- JavaScript truthiness of an optional numeric request field:
`undefined` and `0` are falsy. -/
def truthyNum : Option ℚ → Bool
  | none => false
  | some a => !(a == 0)

/-- JavaScript `Math.round`: round half toward positive infinity,
`Math.round x = ⌊x + 0.5⌋`. -/
def jsRound {α : Type} [LinearOrderedField α] [FloorRing α] (x : α) : ℤ :=
  ⌊x + 1/2⌋

/-- Shipping-rate configuration record (`SHIPPING_RATES` in `server.js`). -/
structure ShippingRates (α : Type) where
  baseRate : α
  costPerMile : α
  maxRate : α
  freeShippingThreshold : α

/-- The `SHIPPING_RATES` constant of `server.js`:
base 5.00, 0.50 per mile, capped at 50.00, free shipping from 150.00. -/
def SHIPPING_RATES {α : Type} [DivisionRing α] : ShippingRates α :=
  ⟨5.00, 0.50, 50.00, 150.00⟩

/-- `calculateShippingCost(distance, subtotal)` from `server.js`:
free shipping at or above the threshold, otherwise base rate plus
distance times cost per mile, capped at the max rate, and the result of
`Math.round(cost * 100) / 100`.  Stated over any linear ordered field
with a floor so that it can be evaluated exactly on ℚ and composed with
the real-valued distance. -/
def calculateShippingCost {α : Type} [LinearOrderedField α] [FloorRing α]
    (distance subtotal : α) : α :=
  if SHIPPING_RATES.freeShippingThreshold ≤ subtotal then 0
  else
    let cost := SHIPPING_RATES.baseRate + distance * SHIPPING_RATES.costPerMile
    let cost := if SHIPPING_RATES.maxRate < cost then SHIPPING_RATES.maxRate else cost
    (jsRound (cost * 100) : α) / 100

/-- The store origin (`STORE_LOCATION` in `server.js`) with its default
environment values: latitude 35.8456, longitude -103.3181. -/
structure StoreLocation where
  address : String
  lat : ℝ
  lng : ℝ

/-- Default `STORE_LOCATION` constant. -/
noncomputable def STORE_LOCATION : StoreLocation :=
  ⟨"339873 E US 62 Meeker OK 74855", 35.8456, -103.3181⟩

/-- JavaScript `Math.atan2 y x` (two-argument arctangent), restricted to
ordinary reals (signed zeros and NaN do not arise in this model). -/
noncomputable def atan2 (y x : ℝ) : ℝ :=
  if 0 < x then Real.arctan (y / x)
  else if x < 0 then
    (if 0 ≤ y then Real.arctan (y / x) + π else Real.arctan (y / x) - π)
  else
    (if 0 < y then π / 2 else if y < 0 then -(π / 2) else 0)

/-- `calculateDistance(lat1, lon1, lat2, lon2)` from `server.js`:
haversine great-circle distance in miles, Earth radius 3959. -/
noncomputable def calculateDistance (lat1 lon1 lat2 lon2 : ℝ) : ℝ :=
  let R : ℝ := 3959
  let dLat := (lat2 - lat1) * π / 180
  let dLon := (lon2 - lon1) * π / 180
  let a :=
    Real.sin (dLat / 2) * Real.sin (dLat / 2) +
      Real.cos (lat1 * π / 180) * Real.cos (lat2 * π / 180) *
      Real.sin (dLon / 2) * Real.sin (dLon / 2)
  let c := 2 * atan2 (Real.sqrt a) (Real.sqrt (1 - a))
  R * c

/-- Stated from the spec's words (§4.1/§4.3 of the spec and claim C2):
convert the latitude/longitude differences to radians,
`a = sin²(Δlat/2) + cos(lat1)·cos(lat2)·sin²(Δlon/2)`, and
`distance = 2·R·atan2(√a, √(1−a))` with `R = 3959`.  Comparison
definition for the refinement claim about `calculateDistance`. -/
noncomputable def haversineSpec (lat1 lon1 lat2 lon2 : ℝ) : ℝ :=
  let R : ℝ := 3959
  let dLat := (lat2 - lat1) * π / 180
  let dLon := (lon2 - lon1) * π / 180
  let a :=
    Real.sin (dLat / 2) ^ 2 +
      Real.cos (lat1 * π / 180) * Real.cos (lat2 * π / 180) * Real.sin (dLon / 2) ^ 2
  2 * R * atan2 (Real.sqrt a) (Real.sqrt (1 - a))

/-- Round half up on the cent boundary (two decimal places), as the
spec's §4.3 step 4 words it.  Used by the spec-side pricing policy. -/
def roundHalfUpCents {α : Type} [LinearOrderedField α] [FloorRing α] (x : α) : α :=
  (⌊x * 100 + 1/2⌋ : α) / 100

/-- Stated from the spec's words (§4.3 and claim C1): free shipping at
or above the threshold (inclusive), otherwise base rate plus distance
times cost per mile, capped at the max rate, then rounded half up to two
decimals.  Comparison definition for the refinement claim about
`calculateShippingCost`. -/
def shippingCostSpec {α : Type} [LinearOrderedField α] [FloorRing α]
    (distance subtotal : α) : α :=
  if 150.00 ≤ subtotal then 0
  else roundHalfUpCents (min (5.00 + distance * 0.50) 50.00)

/-- `geocodeAddress` from `server.js`.  The environment variable
`GOOGLE_MAPS_API_KEY` and the outbound Google geocoding call are the
external collaborators: the key is an optional string, and `fetch`
returns the first result's coordinates (`none` models both "zero
results" and a request error, in which case the source returns `null`).
With no (or an empty, hence falsy) API key the source falls back to the
hardcoded estimate `(35.0, -97.0)` instead of failing. -/
noncomputable def geocodeAddress (apiKey : Option String)
    (fetch : String → Option (ℝ × ℝ)) (address : String) : Option (ℝ × ℝ) :=
  if truthy apiKey then fetch address
  else some (35.0, -97.0)

/-- Body of a `POST /api/shipping/calculate` request: the destructured
fields `{address, city, state, zipCode, country, subtotal}`, each
possibly absent. -/
structure ShippingRequest where
  address : Option String
  city : Option String
  state : Option String
  zipCode : Option String
  country : Option String
  subtotal : Option ℝ

/-- The template string
`` `${address}, ${city}, ${state} ${zipCode}, ${country || 'USA'}` ``
built by the shipping handler (absent pieces only occur after the
completeness check, so `getD ""` is never exercised on required
fields; `country || 'USA'` is the JavaScript falsy default). -/
def fullAddress (req : ShippingRequest) : String :=
  let country := match req.country with
    | some c => if c = "" then "USA" else c
    | none => "USA"
  req.address.getD "" ++ ", " ++ req.city.getD "" ++ ", " ++
    req.state.getD "" ++ " " ++ req.zipCode.getD "" ++ ", " ++ country

/-- Response of the shipping handler: a 200 quote
`{distance, shippingCost, message}` or a 400 error `{error}`. -/
inductive ShipResult : Type
  | ok (distance shippingCost : ℝ) (message : String)
  | badRequest (error : String)

/-- HTTP status code carried by a `ShipResult`. -/
def ShipResult.status : ShipResult → ℕ
  | .ok _ _ _ => 200
  | .badRequest _ => 400

/-- The `POST /api/shipping/calculate` handler from `server.js`.
Required fields are checked with JavaScript truthiness before any
geocoding; a failed resolution is a 400; otherwise the quote is the
rounded distance from the store, the shipping cost, and a message.  An
absent `subtotal` reaches `calculateShippingCost` as `undefined`, and
`undefined >= 150.00` is false while `subtotal` is not used otherwise,
so it behaves exactly like the below-threshold subtotal `0`. -/
noncomputable def shippingHandler (apiKey : Option String)
    (fetch : String → Option (ℝ × ℝ)) (req : ShippingRequest) : ShipResult :=
  if !truthy req.address || !truthy req.city || !truthy req.state || !truthy req.zipCode then
    .badRequest "Incomplete shipping address"
  else
    match geocodeAddress apiKey fetch (fullAddress req) with
    | none => .badRequest "Unable to validate address"
    | some coords =>
      let distance := calculateDistance STORE_LOCATION.lat STORE_LOCATION.lng coords.1 coords.2
      let shippingCost := calculateShippingCost distance (req.subtotal.getD 0)
      let miles : ℤ := jsRound distance
      .ok ((jsRound (distance * 10) : ℝ) / 10) shippingCost
        (if shippingCost = 0 then "Free shipping!"
          else "Shipping for " ++ toString miles ++ " miles")

/-- Result object of the Square `createPayment` call, as read by the
handler: `payment.result.payment.id` and `payment.result.payment.status`. -/
structure SquarePayment where
  id : String
  status : String

/-- Body of a `POST /api/payments/square` request. -/
structure PaymentRequest where
  sourceId : Option String
  amount : Option ℚ
  currency : Option String
  orderId : Option String
  customerEmail : Option String
  customerName : Option String

/-- Payment-related fields of a stored order document (the fields the
handler's `updateOne` writes). -/
structure OrderDoc where
  paymentStatus : Option String
  paymentId : Option String
  paymentMethod : Option String
deriving DecidableEq

/-- The orders collection, modelled as an association list from the
document `_id` to its payment fields; `none` means the collection
handle is still null (store not connected). -/
abbrev OrdersState : Type := Option (List (String × OrderDoc))

/-- `updateOne({_id}, {$set: {paymentStatus, paymentId, paymentMethod,
updatedAt}})` on the orders collection: set the payment fields of every
document whose `_id` matches (at most one, since `_id` is a key). -/
def updateOrderPayment (orders : List (String × OrderDoc)) (oid pid : String) :
    List (String × OrderDoc) :=
  orders.map fun p =>
    if p.1 = oid then (p.1, ⟨some "completed", some pid, some "square"⟩) else p

/-- Response of the payments handler: 200 `{success: true, paymentId,
status, message}`, 400 `{success: false, message}` (missing fields or a
non-successful payment status), or 500 `{success: false, error}` from
the catch-all. -/
inductive PayResult : Type
  | ok (paymentId status message : String)
  | badRequest (message : String)
  | processorError (error : String)
deriving DecidableEq

/-- HTTP status code carried by a `PayResult`. -/
def PayResult.statusCode : PayResult → ℕ
  | .ok _ _ _ => 200
  | .badRequest _ => 400
  | .processorError _ => 500

/-- The `success` flag of the JSON body carried by a `PayResult`. -/
def PayResult.success : PayResult → Bool
  | .ok _ _ _ => true
  | _ => false

/-- The `POST /api/payments/square` handler from `server.js`.  The
Square SDK call is the external collaborator `pay` (an exception is the
`Except.error` case and lands in the catch-all 500); `isValidId` is the
driver's ObjectId syntax check, and `new ObjectId(orderId)` throwing on
an invalid id is likewise caught as a 500.  The order is written only in
the `COMPLETED`/`APPROVED` branch, and only when the collection handle
is non-null. -/
def paymentsHandler (isValidId : String → Bool)
    (pay : Except String SquarePayment) (orders : OrdersState)
    (req : PaymentRequest) : PayResult × OrdersState :=
  if !truthy req.sourceId || !truthyNum req.amount || !truthy req.orderId then
    (.badRequest "Missing required payment fields", orders)
  else
    match pay with
    | .error e => (.processorError e, orders)
    | .ok p =>
      if p.status == "COMPLETED" || p.status == "APPROVED" then
        match orders with
        | some os =>
          let oid := req.orderId.getD ""
          if isValidId oid then
            (.ok p.id p.status "Payment processed successfully",
              some (updateOrderPayment os oid p.id))
          else
            (.processorError "Invalid ObjectId string", some os)
        | none => (.ok p.id p.status "Payment processed successfully", none)
      else
        (.badRequest ("Payment " ++ p.status), orders)

/-- A stored product document (name, description, price, emoji). -/
structure Product where
  name : String
  description : String
  price : ℚ
  emoji : String
deriving DecidableEq

/-- `deleteOne({_id})` on the products collection: remove the first
document whose `_id` matches and report the deleted count (0 or 1). -/
def deleteOne (ps : List (String × Product)) (oid : String) :
    ℕ × List (String × Product) :=
  match ps with
  | [] => (0, [])
  | p :: rest =>
    if p.1 = oid then (1, rest)
    else
      let r := deleteOne rest oid
      (r.1, p :: r.2)

/-- Response of the product-delete handler: 200 `{message}`,
400 `{error}` on an invalid id, 404 `{error}` when nothing matched, or
503 `{error}` while the store is not connected. -/
inductive DeleteResult : Type
  | ok (message : String)
  | badRequest (error : String)
  | notFound (error : String)
  | unavailable (error : String)
deriving DecidableEq

/-- HTTP status code carried by a `DeleteResult`. -/
def DeleteResult.status : DeleteResult → ℕ
  | .ok _ => 200
  | .badRequest _ => 400
  | .notFound _ => 404
  | .unavailable _ => 503

/-- The `DELETE /api/products/:id` handler from `server.js`: 503 while
the collection handle is null, 400 when `ObjectId.isValid` (the driver
syntax check, passed in as `isValidId`) rejects the path parameter —
before any store operation — then `deleteOne`, with 404 when it deleted
nothing. -/
def deleteProductHandler (isValidId : String → Bool)
    (products : Option (List (String × Product))) (id : String) :
    DeleteResult × Option (List (String × Product)) :=
  match products with
  | none => (.unavailable "Database not connected", none)
  | some ps =>
    if !isValidId id then (.badRequest "Invalid product ID", some ps)
    else
      let r := deleteOne ps id
      if r.1 = 0 then (.notFound "Product not found", some ps)
      else (.ok "Product deleted successfully", some r.2)

/-- The haversine intermediate quantity `a` of `calculateDistance` at
the default store location (35.8456, -103.3181) and the geocoding
fallback coordinate (35, -97), with the angle arguments brought to the
normal forms `k·π/n`: `|Δlat|/2 = 1057π/450000`, `lat1 = 44807π/225000`
radians, `lat2 = 7π/36` radians, `Δlon/2 = 63181π/3600000`.  Helper for
the numeric analysis of the fallback-mode distance. -/
noncomputable def fallbackA : ℝ :=
  Real.sin (1057 * π / 450000) * Real.sin (1057 * π / 450000) +
    Real.cos (44807 * π / 225000) * Real.cos (7 * π / 36) *
    Real.sin (63181 * π / 3600000) * Real.sin (63181 * π / 3600000)

/-- Evaluation rule for `jsRound`, phrased through the characterising
inequalities of the floor. -/
theorem jsRound_eq {α : Type} [LinearOrderedField α] [FloorRing α] (x : α) (n : ℤ)
    (h1 : (n : α) ≤ x + 1/2) (h2 : x + 1/2 < n + 1) : jsRound x = n := by
  unfold jsRound
  exact Int.floor_eq_iff.mpr ⟨h1, by exact_mod_cast h2⟩

/-- Unfolding lemma for `calculateShippingCost` with the rate constants
inserted as plain numerals. -/
theorem calculateShippingCost_def {α : Type} [LinearOrderedField α] [FloorRing α] (d s : α) :
    calculateShippingCost d s =
      if (150 : α) ≤ s then 0
      else (jsRound ((if (50 : α) < 5 + d * (1/2) then (50 : α) else 5 + d * (1/2)) * 100) : α) / 100 := by
  unfold calculateShippingCost
  norm_num [SHIPPING_RATES]

/-- Free-shipping branch of the pricing policy. -/
theorem calculateShippingCost_free {α : Type} [LinearOrderedField α] [FloorRing α]
    (d s : α) (hs : (150 : α) ≤ s) : calculateShippingCost d s = 0 := by
  rw [calculateShippingCost_def, if_pos hs]

/-- Below the threshold the rounded cost stays between the base rate
and the cap, for any nonnegative distance. -/
theorem calculateShippingCost_paid_bounds {α : Type} [LinearOrderedField α] [FloorRing α]
    (d s : α) (hd : 0 ≤ d) (hs : ¬(150 : α) ≤ s) :
    5 ≤ calculateShippingCost d s ∧ calculateShippingCost d s ≤ 50 := by
  rw [calculateShippingCost_def, if_neg hs]
  have hc : 5 ≤ (if (50 : α) < 5 + d * (1/2) then (50 : α) else 5 + d * (1/2)) ∧
      (if (50 : α) < 5 + d * (1/2) then (50 : α) else 5 + d * (1/2)) ≤ 50 := by
    split_ifs with h2
    · norm_num
    · exact ⟨by nlinarith, not_lt.mp h2⟩
  set c := if (50 : α) < 5 + d * (1/2) then (50 : α) else 5 + d * (1/2)
  have hlo : (500 : ℤ) ≤ jsRound (c * 100) := by
    unfold jsRound
    rw [Int.le_floor]
    push_cast
    nlinarith [hc.1]
  have hhi : jsRound (c * 100) ≤ 5000 := by
    unfold jsRound
    have : (⌊c * 100 + 1/2⌋ : ℤ) < 5001 := by
      rw [Int.floor_lt]
      push_cast
      nlinarith [hc.2]
    omega
  constructor
  · have : (500 : α) ≤ (jsRound (c * 100) : α) := by exact_mod_cast hlo
    linarith [this]
  · have : ((jsRound (c * 100) : α)) ≤ 5000 := by exact_mod_cast hhi
    linarith [this]

/-- The rounded cost is an integer number of cents. -/
theorem calculateShippingCost_cents {α : Type} [LinearOrderedField α] [FloorRing α]
    (d s : α) : ∃ n : ℤ, calculateShippingCost d s = (n : α) / 100 := by
  rw [calculateShippingCost_def]
  by_cases h1 : (150 : α) ≤ s
  · rw [if_pos h1]
    exact ⟨0, by norm_num⟩
  · rw [if_neg h1]
    exact ⟨_, rfl⟩

/-- C1: for every distance and subtotal, `calculateShippingCost` is 0
at or above the free-shipping threshold 150.00 (inclusive), and
otherwise equals baseRate 5.00 plus distance times 0.50, capped at
50.00 when that sum exceeds the cap and then rounded half-up to two
decimals; in particular it is 50.00 at (1000, 0) and 5.00 at (0, 0). -/
theorem C1_shippingCost_policy :
    (∀ (α : Type) [LinearOrderedField α] [FloorRing α] (d s : α),
        calculateShippingCost d s = shippingCostSpec d s) ∧
    calculateShippingCost (1000 : ℚ) 0 = 50 ∧ calculateShippingCost (0 : ℚ) 0 = 5 := by
  refine ⟨?_, ?_, ?_⟩
  · intro α _ _ d s
    rw [calculateShippingCost_def]
    unfold shippingCostSpec roundHalfUpCents jsRound
    have e2 : (150.00 : α) = 150 := by norm_num
    rw [e2]
    by_cases h1 : (150 : α) ≤ s
    · rw [if_pos h1, if_pos h1]
    · rw [if_neg h1, if_neg h1]
      have e3 : (if (50 : α) < 5 + d * (1/2) then (50 : α) else 5 + d * (1/2)) =
          min (5.00 + d * 0.50) 50.00 := by
        have e4 : (5.00 : α) + d * 0.50 = 5 + d * (1/2) := by norm_num
        have e5 : (50.00 : α) = 50 := by norm_num
        rw [e4, e5]
        rcases le_or_lt (5 + d * (1/2)) 50 with h | h
        · rw [if_neg (not_lt.mpr h), min_eq_left h]
        · rw [if_pos h, min_eq_right h.le]
      rw [e3]
  · rw [calculateShippingCost_def, if_neg (by norm_num), if_pos (by norm_num),
      show jsRound (((50 : ℚ)) * 100) = 5000 from jsRound_eq _ _ (by norm_num) (by norm_num)]
    norm_num
  · rw [calculateShippingCost_def, if_neg (by norm_num), if_neg (by norm_num),
      show jsRound (((5 : ℚ) + 0 * (1/2)) * 100) = 500 from jsRound_eq _ _ (by norm_num) (by norm_num)]
    norm_num


/-- `atan2` is nonnegative whenever its first argument is. -/
theorem atan2_nonneg (y x : ℝ) (hy : 0 ≤ y) : 0 ≤ atan2 y x := by
  unfold atan2
  split_ifs with h1 h2 h3 h4
  all_goals first
    | (calc (0 : ℝ) = Real.arctan 0 := Real.arctan_zero.symm
        _ ≤ Real.arctan (y / x) := Real.arctan_strictMono.monotone (div_nonneg hy (le_of_lt h1)))
    | linarith [Real.neg_pi_div_two_lt_arctan (y / x), Real.pi_pos]
    | exact le_refl 0

/-- `calculateDistance` never returns a negative value. -/
theorem calculateDistance_nonneg (lat1 lon1 lat2 lon2 : ℝ) :
    0 ≤ calculateDistance lat1 lon1 lat2 lon2 := by
  simp only [calculateDistance]
  have h := atan2_nonneg
    (Real.sqrt (Real.sin ((lat2 - lat1) * π / 180 / 2) * Real.sin ((lat2 - lat1) * π / 180 / 2) +
      Real.cos (lat1 * π / 180) * Real.cos (lat2 * π / 180) *
      Real.sin ((lon2 - lon1) * π / 180 / 2) * Real.sin ((lon2 - lon1) * π / 180 / 2)))
    (Real.sqrt (1 - (Real.sin ((lat2 - lat1) * π / 180 / 2) * Real.sin ((lat2 - lat1) * π / 180 / 2) +
      Real.cos (lat1 * π / 180) * Real.cos (lat2 * π / 180) *
      Real.sin ((lon2 - lon1) * π / 180 / 2) * Real.sin ((lon2 - lon1) * π / 180 / 2))))
    (Real.sqrt_nonneg _)
  exact mul_nonneg (by norm_num) (mul_nonneg (by norm_num) h)

/-- The non-free quote message never collides with the free-shipping
message (they differ in their first character). -/
theorem shippingMessage_ne (x y : String) : ("Shipping for " ++ x) ++ y ≠ "Free shipping!" := by
  intro h
  have h2 := congrArg String.data h
  simp only [String.data_append] at h2
  simp at h2

/-- Running the shipping handler when validation passes and the address
resolves: the 200 quote, spelled out. -/
theorem shippingHandler_resolved (apiKey : Option String)
    (fetch : String → Option (ℝ × ℝ)) (req : ShippingRequest) (c : ℝ × ℝ)
    (hv : (!truthy req.address || !truthy req.city || !truthy req.state || !truthy req.zipCode) = false)
    (hg : geocodeAddress apiKey fetch (fullAddress req) = some c) :
    shippingHandler apiKey fetch req =
      .ok ((jsRound (calculateDistance STORE_LOCATION.lat STORE_LOCATION.lng c.1 c.2 * 10) : ℝ) / 10)
        (calculateShippingCost (calculateDistance STORE_LOCATION.lat STORE_LOCATION.lng c.1 c.2)
          (req.subtotal.getD 0))
        (if calculateShippingCost (calculateDistance STORE_LOCATION.lat STORE_LOCATION.lng c.1 c.2)
              (req.subtotal.getD 0) = 0
          then "Free shipping!"
          else "Shipping for " ++
            toString (jsRound (calculateDistance STORE_LOCATION.lat STORE_LOCATION.lng c.1 c.2)) ++
            " miles") := by
  unfold shippingHandler
  rw [hv, hg]
  norm_num

/-- Inversion: a 200 quote can only come from a resolved address, and
its fields are the rounded distance and the computed cost. -/
theorem shippingHandler_ok_inv (apiKey : Option String)
    (fetch : String → Option (ℝ × ℝ)) (req : ShippingRequest) (dd cc : ℝ) (msg : String)
    (h : shippingHandler apiKey fetch req = .ok dd cc msg) :
    ∃ c, geocodeAddress apiKey fetch (fullAddress req) = some c ∧
      dd = (jsRound (calculateDistance STORE_LOCATION.lat STORE_LOCATION.lng c.1 c.2 * 10) : ℝ) / 10 ∧
      cc = calculateShippingCost (calculateDistance STORE_LOCATION.lat STORE_LOCATION.lng c.1 c.2)
        (req.subtotal.getD 0) ∧
      msg = (if calculateShippingCost (calculateDistance STORE_LOCATION.lat STORE_LOCATION.lng c.1 c.2)
            (req.subtotal.getD 0) = 0
          then "Free shipping!"
          else "Shipping for " ++
            toString (jsRound (calculateDistance STORE_LOCATION.lat STORE_LOCATION.lng c.1 c.2)) ++
            " miles") := by
  unfold shippingHandler at h
  by_cases hv : (!truthy req.address || !truthy req.city || !truthy req.state || !truthy req.zipCode) = true
  · rw [if_pos hv] at h
    exact (ShipResult.noConfusion h)
  · rw [if_neg hv] at h
    cases hg : geocodeAddress apiKey fetch (fullAddress req) with
    | none =>
      rw [hg] at h
      exact (ShipResult.noConfusion h)
    | some c =>
      rw [hg] at h
      injection h with h1 h2 h3
      exact ⟨c, rfl, h1.symm, h2.symm, h3.symm⟩

/-- C3: the distance is always nonnegative; for a nonnegative distance
the cost lies in [0, 50.00] and is a whole number of cents; hence every
200 quote produced by the shipping handler has a nonnegative distance
and a cost in [0, 50.00]. -/
theorem C3_quote_invariants :
    (∀ lat1 lon1 lat2 lon2 : ℝ, 0 ≤ calculateDistance lat1 lon1 lat2 lon2) ∧
    (∀ d s : ℚ, 0 ≤ d →
      0 ≤ calculateShippingCost d s ∧ calculateShippingCost d s ≤ 50 ∧
        ∃ n : ℤ, calculateShippingCost d s = (n : ℚ) / 100) ∧
    (∀ (apiKey : Option String) (fetch : String → Option (ℝ × ℝ)) (req : ShippingRequest)
        (dd cc : ℝ) (msg : String),
      shippingHandler apiKey fetch req = ShipResult.ok dd cc msg →
        0 ≤ dd ∧ 0 ≤ cc ∧ cc ≤ 50) := by
  refine ⟨calculateDistance_nonneg, ?_, ?_⟩
  · intro d s hd
    by_cases hs : (150 : ℚ) ≤ s
    · exact ⟨by rw [calculateShippingCost_free d s hs],
        by rw [calculateShippingCost_free d s hs]; norm_num,
        calculateShippingCost_cents d s⟩
    · have hb := calculateShippingCost_paid_bounds d s hd hs
      exact ⟨by linarith [hb.1], hb.2, calculateShippingCost_cents d s⟩
  · intro apiKey fetch req dd cc msg h
    obtain ⟨c, -, hdd, hcc, -⟩ := shippingHandler_ok_inv apiKey fetch req dd cc msg h
    have hdist : 0 ≤ calculateDistance STORE_LOCATION.lat STORE_LOCATION.lng c.1 c.2 :=
      calculateDistance_nonneg _ _ _ _
    refine ⟨?_, ?_, ?_⟩
    · rw [hdd]
      have hfl : (0 : ℤ) ≤ jsRound (calculateDistance STORE_LOCATION.lat STORE_LOCATION.lng c.1 c.2 * 10) := by
        unfold jsRound
        rw [Int.le_floor]
        push_cast
        nlinarith
      have : (0 : ℝ) ≤ (jsRound (calculateDistance STORE_LOCATION.lat STORE_LOCATION.lng c.1 c.2 * 10) : ℝ) := by
        exact_mod_cast hfl
      linarith
    · rw [hcc]
      by_cases hs : (150 : ℝ) ≤ req.subtotal.getD 0
      · rw [calculateShippingCost_free _ _ hs]
      · linarith [(calculateShippingCost_paid_bounds _ (req.subtotal.getD 0) hdist hs).1]
    · rw [hcc]
      by_cases hs : (150 : ℝ) ≤ req.subtotal.getD 0
      · rw [calculateShippingCost_free _ _ hs]
        norm_num
      · exact (calculateShippingCost_paid_bounds _ (req.subtotal.getD 0) hdist hs).2

/-- Witness for C3 at distance 3 and subtotal 7. -/
theorem C3_quote_invariants_witness :
    0 ≤ calculateShippingCost (3 : ℚ) 7 ∧ calculateShippingCost (3 : ℚ) 7 ≤ 50 :=
  ⟨(C3_quote_invariants.2.1 3 7 (by norm_num)).1,
    (C3_quote_invariants.2.1 3 7 (by norm_num)).2.1⟩

/-- C9: for a nonnegative distance the cost is zero exactly when the
subtotal meets the threshold, the cost is never strictly between 0 and
the base rate 5.00, and a 200 quote carries the "Free shipping!"
message exactly when the subtotal meets the threshold. -/
theorem C9_free_iff_threshold :
    (∀ d s : ℚ, 0 ≤ d →
      ((calculateShippingCost d s = 0 ↔ 150 ≤ s) ∧
        ¬(0 < calculateShippingCost d s ∧ calculateShippingCost d s < 5))) ∧
    (∀ (apiKey : Option String) (fetch : String → Option (ℝ × ℝ)) (req : ShippingRequest)
        (dd cc : ℝ) (msg : String),
      shippingHandler apiKey fetch req = ShipResult.ok dd cc msg →
        (msg = "Free shipping!" ↔ 150 ≤ req.subtotal.getD 0)) := by
  constructor
  · intro d s hd
    by_cases hs : (150 : ℚ) ≤ s
    · rw [calculateShippingCost_free d s hs]
      exact ⟨⟨fun _ => hs, fun _ => rfl⟩, by norm_num⟩
    · have hb := calculateShippingCost_paid_bounds d s hd hs
      refine ⟨⟨fun h0 => absurd h0 (by linarith [hb.1]), fun h => absurd h hs⟩, ?_⟩
      rintro ⟨-, h5⟩
      linarith [hb.1]
  · intro apiKey fetch req dd cc msg h
    obtain ⟨c, -, -, -, hmsg⟩ := shippingHandler_ok_inv apiKey fetch req dd cc msg h
    have hdist : 0 ≤ calculateDistance STORE_LOCATION.lat STORE_LOCATION.lng c.1 c.2 :=
      calculateDistance_nonneg _ _ _ _
    constructor
    · intro hm
      by_contra hs
      have hb := calculateShippingCost_paid_bounds _ (req.subtotal.getD 0) hdist hs
      have hne : calculateShippingCost
          (calculateDistance STORE_LOCATION.lat STORE_LOCATION.lng c.1 c.2)
          (req.subtotal.getD 0) ≠ 0 := by
        intro h0
        rw [h0] at hb
        linarith [hb.1]
      rw [if_neg hne] at hmsg
      exact shippingMessage_ne _ _ (hmsg.symm.trans hm)
    · intro hs
      rw [calculateShippingCost_free _ _ hs] at hmsg
      rw [if_pos rfl] at hmsg
      exact hmsg

/-- Witness for C9 at distance 10 and subtotal 150. -/
theorem C9_free_iff_threshold_witness :
    calculateShippingCost (10 : ℚ) 150 = 0 ↔ (150 : ℚ) ≤ 150 :=
  (C9_free_iff_threshold.1 10 150 (by norm_num)).1

/-- C2: `calculateDistance` computes exactly the haversine great-circle
distance of the spec: radian conversion of the coordinate differences,
`a = sin²(Δlat/2) + cos(lat1)·cos(lat2)·sin²(Δlon/2)`, and
`2·R·atan2(√a, √(1−a))` with Earth radius `R = 3959` miles. -/
theorem C2_distance_matches_haversine :
    ∀ lat1 lon1 lat2 lon2 : ℝ,
      calculateDistance lat1 lon1 lat2 lon2 = haversineSpec lat1 lon1 lat2 lon2 := by
  intro lat1 lon1 lat2 lon2
  simp only [calculateDistance, haversineSpec]
  have ha : ∀ u v w z : ℝ, u * u + v * w * z * z = u ^ 2 + v * w * z ^ 2 := by
    intro u v w z
    ring
  rw [ha]
  ring

/-- C4: `calculateDistance` is symmetric in its two coordinates and
vanishes on equal coordinates. -/
theorem C4_distance_symm_and_zero :
    (∀ lat1 lon1 lat2 lon2 : ℝ,
      calculateDistance lat1 lon1 lat2 lon2 = calculateDistance lat2 lon2 lat1 lon1) ∧
    (∀ lat lon : ℝ, calculateDistance lat lon lat lon = 0) := by
  constructor
  · intro lat1 lon1 lat2 lon2
    simp only [calculateDistance]
    have h1 : (lat1 - lat2) * π / 180 / 2 = -((lat2 - lat1) * π / 180 / 2) := by ring
    have h2 : (lon1 - lon2) * π / 180 / 2 = -((lon2 - lon1) * π / 180 / 2) := by ring
    rw [h1, h2]
    simp only [Real.sin_neg]
    have key : ∀ s1 c1 c2 s2 : ℝ,
        -s1 * -s1 + c2 * c1 * -s2 * -s2 = s1 * s1 + c1 * c2 * s2 * s2 := by
      intro s1 c1 c2 s2
      ring
    rw [key]
  · intro lat lon
    simp only [calculateDistance]
    rw [show (lat - lat) * π / 180 / 2 = 0 by ring, show (lon - lon) * π / 180 / 2 = 0 by ring,
      Real.sin_zero]
    rw [show (0 : ℝ) * 0 + Real.cos (lat * π / 180) * Real.cos (lat * π / 180) * 0 * 0 = 0 by ring,
      Real.sqrt_zero, show (1 : ℝ) - 0 = 1 by norm_num, Real.sqrt_one]
    unfold atan2
    rw [if_pos (by norm_num : (0 : ℝ) < 1)]
    norm_num

/-- C5: a shipping request missing any of the four required address
fields is rejected 400 with "Incomplete shipping address" and the
response never depends on the geocoding collaborator; a complete
request whose address fails to resolve is rejected 400 with the
distinct error "Unable to validate address" (no quote). -/
theorem C5_shipping_validation :
    ∀ (apiKey : Option String) (fetch fetch2 : String → Option (ℝ × ℝ)) (req : ShippingRequest),
      ((req.address = none ∨ req.city = none ∨ req.state = none ∨ req.zipCode = none) →
        shippingHandler apiKey fetch req = ShipResult.badRequest "Incomplete shipping address" ∧
        shippingHandler apiKey fetch req = shippingHandler apiKey fetch2 req) ∧
      ((!truthy req.address || !truthy req.city || !truthy req.state || !truthy req.zipCode) = false →
        geocodeAddress apiKey fetch (fullAddress req) = none →
        shippingHandler apiKey fetch req = ShipResult.badRequest "Unable to validate address") := by
  intro apiKey fetch fetch2 req
  constructor
  · intro hmiss
    have hv : (!truthy req.address || !truthy req.city || !truthy req.state || !truthy req.zipCode) = true := by
      rcases hmiss with h | h | h | h <;> simp [truthy, h]
    have e : ∀ f : String → Option (ℝ × ℝ),
        shippingHandler apiKey f req = ShipResult.badRequest "Incomplete shipping address" := by
      intro f
      unfold shippingHandler
      rw [if_pos hv]
    exact ⟨e fetch, (e fetch).trans (e fetch2).symm⟩
  · intro hv hg
    unfold shippingHandler
    rw [hv, hg]
    norm_num

/-- Witness for C5: a request without `zipCode` is rejected as
incomplete, and a complete request that does not geocode is rejected as
unvalidatable. -/
theorem C5_shipping_validation_witness :
    shippingHandler (some "key") (fun _ => none)
        ⟨some "123 Main St", some "Springfield", some "IL", none, none, none⟩ =
      ShipResult.badRequest "Incomplete shipping address" ∧
    shippingHandler (some "key") (fun _ => none)
        ⟨some "123 Main St", some "Springfield", some "IL", some "62701", none, none⟩ =
      ShipResult.badRequest "Unable to validate address" :=
  ⟨((C5_shipping_validation (some "key") (fun _ => none) (fun _ => some (0, 0))
      ⟨some "123 Main St", some "Springfield", some "IL", none, none, none⟩).1
      (Or.inr (Or.inr (Or.inr rfl)))).1,
    (C5_shipping_validation (some "key") (fun _ => none) (fun _ => some (0, 0))
      ⟨some "123 Main St", some "Springfield", some "IL", some "62701", none, none⟩).2
      (by decide) rfl⟩

/-- C10: a complete request with no `subtotal` field still gets a 200
quote whenever the address resolves, the cost is exactly the
below-threshold cost (computed as with subtotal 0), and any subtotal
below the threshold yields that same cost. -/
theorem C10_missing_subtotal_still_quotes :
    ∀ (apiKey : Option String) (fetch : String → Option (ℝ × ℝ)) (req : ShippingRequest)
      (c : ℝ × ℝ),
      (!truthy req.address || !truthy req.city || !truthy req.state || !truthy req.zipCode) = false →
      req.subtotal = none →
      geocodeAddress apiKey fetch (fullAddress req) = some c →
      ((shippingHandler apiKey fetch req).status = 200 ∧
        (∃ msg, shippingHandler apiKey fetch req =
          ShipResult.ok
            ((jsRound (calculateDistance STORE_LOCATION.lat STORE_LOCATION.lng c.1 c.2 * 10) : ℝ) / 10)
            (calculateShippingCost (calculateDistance STORE_LOCATION.lat STORE_LOCATION.lng c.1 c.2) 0)
            msg) ∧
        ∀ s : ℝ, s < 150 →
          calculateShippingCost (calculateDistance STORE_LOCATION.lat STORE_LOCATION.lng c.1 c.2) s =
            calculateShippingCost (calculateDistance STORE_LOCATION.lat STORE_LOCATION.lng c.1 c.2) 0) := by
  intro apiKey fetch req c hv hs hg
  have hres := shippingHandler_resolved apiKey fetch req c hv hg
  rw [hs] at hres
  simp only [Option.getD_none] at hres
  refine ⟨by rw [hres]; rfl, ⟨_, hres⟩, ?_⟩
  intro s hs150
  rw [calculateShippingCost_def, calculateShippingCost_def,
    if_neg (by linarith : ¬(150 : ℝ) ≤ s), if_neg (by norm_num : ¬(150 : ℝ) ≤ 0)]

/-- Witness for C10: fallback geocoding (no API key), all address
fields present, no subtotal. -/
theorem C10_missing_subtotal_still_quotes_witness :
    (shippingHandler none (fun _ => none)
      ⟨some "1 Elm St", some "Oklahoma City", some "OK", some "73102", none, none⟩).status = 200 :=
  (C10_missing_subtotal_still_quotes none (fun _ => none)
    ⟨some "1 Elm St", some "Oklahoma City", some "OK", some "73102", none, none⟩
    (35.0, -97.0) (by decide) rfl rfl).1

/-- `deleteOne` on a list without a matching key deletes nothing and
leaves the list unchanged. -/
theorem deleteOne_not_mem (ps : List (String × Product)) (oid : String)
    (h : ∀ p ∈ ps, p.1 ≠ oid) : deleteOne ps oid = (0, ps) := by
  induction ps with
  | nil => rfl
  | cons p rest ih =>
    have hrest := ih fun q hq => h q (List.mem_cons_of_mem _ hq)
    simp [deleteOne, if_neg (h p (List.mem_cons_self p rest)), hrest]

/-- `deleteOne` on a list containing the key deletes exactly one
element. -/
theorem deleteOne_mem (ps : List (String × Product)) (oid : String)
    (h : ∃ p ∈ ps, p.1 = oid) :
    (deleteOne ps oid).1 = 1 ∧ (deleteOne ps oid).2.length + 1 = ps.length := by
  induction ps with
  | nil =>
    obtain ⟨p, hp, -⟩ := h
    exact absurd hp (List.not_mem_nil p)
  | cons p rest ih =>
    by_cases hp : p.1 = oid
    · simp [deleteOne, hp]
    · obtain ⟨q, hq, hq2⟩ := h
      rcases List.mem_cons.mp hq with rfl | hq3
      · exact absurd hq2 hp
      · have hrec := ih ⟨q, hq3, hq2⟩
        simp only [deleteOne, if_neg hp, List.length_cons]
        exact ⟨hrec.1, by have h2 := hrec.2; omega⟩

/-- C8: with the store connected, an invalid product id is rejected 400
and the store left untouched; a well-formed id with no matching product
is a 404 (store untouched); a matching product is removed (one fewer
document) with a 200 message. -/
theorem C8_delete_product :
    ∀ (isValidId : String → Bool) (ps : List (String × Product)) (id : String),
      (isValidId id = false →
        deleteProductHandler isValidId (some ps) id =
          (DeleteResult.badRequest "Invalid product ID", some ps)) ∧
      (isValidId id = true → (∀ p ∈ ps, p.1 ≠ id) →
        deleteProductHandler isValidId (some ps) id =
          (DeleteResult.notFound "Product not found", some ps)) ∧
      (isValidId id = true → (∃ p ∈ ps, p.1 = id) →
        ∃ qs, deleteProductHandler isValidId (some ps) id =
            (DeleteResult.ok "Product deleted successfully", some qs) ∧
          qs.length + 1 = ps.length) := by
  intro isValidId ps id
  refine ⟨?_, ?_, ?_⟩
  · intro h
    simp [deleteProductHandler, h]
  · intro h hmiss
    simp [deleteProductHandler, h, deleteOne_not_mem ps id hmiss]
  · intro h hmem
    have hd := deleteOne_mem ps id hmem
    refine ⟨(deleteOne ps id).2, ?_, hd.2⟩
    simp [deleteProductHandler, h, hd.1]

/-- Witness for C8: deleting the only product of a one-element store by
its (24-hex-character) id succeeds and leaves the store empty. -/
theorem C8_delete_product_witness :
    ∃ qs, deleteProductHandler (fun s => s.length == 24)
        (some [("0123456789abcdef01234567", ⟨"Painting", "Wall art", 10, "P"⟩)])
        "0123456789abcdef01234567" =
        (DeleteResult.ok "Product deleted successfully", some qs) ∧
      qs.length + 1 = 1 :=
  (C8_delete_product (fun s => s.length == 24)
    [("0123456789abcdef01234567", ⟨"Painting", "Wall art", 10, "P"⟩)]
    "0123456789abcdef01234567").2.2 (by decide)
    ⟨("0123456789abcdef01234567", ⟨"Painting", "Wall art", 10, "P"⟩),
      List.mem_cons_self _ _, rfl⟩

/-- Counterexample for C6: a Square payment whose status is `APPROVED`
— approved but not completed — still makes the handler report success
and update the stored order, so "the order is updated only when the
payment completed" fails as stated. -/
theorem C6_counterexample :
    ((paymentsHandler (fun s => s.length == 24) (Except.ok ⟨"pay_1", "APPROVED"⟩)
        (some [("0123456789abcdef01234567", ⟨none, none, none⟩)])
        ⟨some "cnon-1", some 10, none, some "0123456789abcdef01234567", none, none⟩).1.success
        = true ∧
      (paymentsHandler (fun s => s.length == 24) (Except.ok ⟨"pay_1", "APPROVED"⟩)
        (some [("0123456789abcdef01234567", ⟨none, none, none⟩)])
        ⟨some "cnon-1", some 10, none, some "0123456789abcdef01234567", none, none⟩).2
        ≠ some [("0123456789abcdef01234567", (⟨none, none, none⟩ : OrderDoc))] ∧
      ("APPROVED" : String) ≠ "COMPLETED") := by
  refine ⟨rfl, ?_, by decide⟩
  intro h
  simp [paymentsHandler, truthy, truthyNum, updateOrderPayment] at h
  revert h
  decide

/-- C6 (amended): missing payment fields are a 400 with the store
untouched; a processor exception is a 500 with the store untouched; a
payment whose status is neither `COMPLETED` nor `APPROVED` is a 400
`success: false` with the store untouched; and the stored order is only
ever modified when the payment result status is `COMPLETED` or
`APPROVED` (in which case the response reports success). -/
theorem C6_payment_order_update :
    ∀ (isValidId : String → Bool) (pay : Except String SquarePayment) (orders : OrdersState)
      (req : PaymentRequest),
      ((!truthy req.sourceId || !truthyNum req.amount || !truthy req.orderId) = true →
        paymentsHandler isValidId pay orders req =
          (PayResult.badRequest "Missing required payment fields", orders)) ∧
      (∀ e, (!truthy req.sourceId || !truthyNum req.amount || !truthy req.orderId) = false →
        pay = Except.error e →
        paymentsHandler isValidId pay orders req = (PayResult.processorError e, orders)) ∧
      (∀ p, (!truthy req.sourceId || !truthyNum req.amount || !truthy req.orderId) = false →
        pay = Except.ok p → ¬(p.status = "COMPLETED" ∨ p.status = "APPROVED") →
        paymentsHandler isValidId pay orders req =
          (PayResult.badRequest ("Payment " ++ p.status), orders)) ∧
      ((paymentsHandler isValidId pay orders req).2 ≠ orders →
        ∃ p, pay = Except.ok p ∧ (p.status = "COMPLETED" ∨ p.status = "APPROVED") ∧
          (paymentsHandler isValidId pay orders req).1.success = true) := by
  intro isValidId pay orders req
  refine ⟨?_, ?_, ?_, ?_⟩
  · intro hv
    unfold paymentsHandler
    rw [if_pos hv]
  · intro e hv hp
    unfold paymentsHandler
    rw [hv, hp]
    norm_num
  · intro p hv hp hst
    have hb : (p.status == "COMPLETED" || p.status == "APPROVED") = false := by
      rw [not_or] at hst
      simp [hst.1, hst.2]
    unfold paymentsHandler
    rw [hv, hp]
    simp only [Bool.false_eq_true, if_false, hb]
  · intro hmod
    by_cases hv : (!truthy req.sourceId || !truthyNum req.amount || !truthy req.orderId) = true
    · exfalso
      apply hmod
      unfold paymentsHandler
      rw [if_pos hv]
    · have hv2 : (!truthy req.sourceId || !truthyNum req.amount || !truthy req.orderId) = false :=
        Bool.eq_false_iff.mpr hv
      cases pay with
      | error e =>
        exfalso
        apply hmod
        unfold paymentsHandler
        rw [hv2]
        norm_num
      | ok p =>
        by_cases hst : (p.status == "COMPLETED" || p.status == "APPROVED") = true
        · refine ⟨p, rfl, by simpa using hst, ?_⟩
          cases orders with
          | none =>
            exfalso
            apply hmod
            unfold paymentsHandler
            rw [hv2]
            simp [hst]
          | some os =>
            by_cases hid : isValidId (req.orderId.getD "") = true
            · unfold paymentsHandler
              rw [hv2]
              simp [hst, hid, PayResult.success]
            · exfalso
              apply hmod
              unfold paymentsHandler
              rw [hv2]
              simp [hst, hid]
        · exfalso
          apply hmod
          have hb : (p.status == "COMPLETED" || p.status == "APPROVED") = false :=
            Bool.eq_false_iff.mpr hst
          unfold paymentsHandler
          rw [hv2]
          simp only [Bool.false_eq_true, if_false, hb]

/-- Witness for C6 (amended): a declined payment leaves the order store
unchanged and yields the structured 400. -/
theorem C6_payment_order_update_witness :
    paymentsHandler (fun s => s.length == 24) (Except.ok ⟨"pay_2", "FAILED"⟩)
        (some [("0123456789abcdef01234567", ⟨none, none, none⟩)])
        ⟨some "cnon-2", some 10, none, some "0123456789abcdef01234567", none, none⟩ =
      (PayResult.badRequest ("Payment " ++ "FAILED"),
        some [("0123456789abcdef01234567", ⟨none, none, none⟩)]) :=
  (C6_payment_order_update (fun s => s.length == 24) (Except.ok ⟨"pay_2", "FAILED"⟩)
    (some [("0123456789abcdef01234567", ⟨none, none, none⟩)])
    ⟨some "cnon-2", some 10, none, some "0123456789abcdef01234567", none, none⟩).2.2.1
    ⟨"pay_2", "FAILED"⟩ (by decide) rfl (by decide)

/-- Cubic Taylor lower bound for `sin` on `[0, 1]`. -/
theorem sin_ge_poly (x : ℝ) (h0 : 0 ≤ x) (h1 : x ≤ 1) :
    x - x ^ 3 / 6 - x ^ 4 * (5 / 96) ≤ Real.sin x := by
  have hb := Real.sin_bound (by rw [abs_of_nonneg h0]; exact h1)
  rw [abs_of_nonneg h0] at hb
  have hab := abs_le.mp hb
  linarith [hab.1]

/-- Cubic Taylor upper bound for `sin` on `[0, 1]`. -/
theorem sin_le_poly (x : ℝ) (h0 : 0 ≤ x) (h1 : x ≤ 1) :
    Real.sin x ≤ x - x ^ 3 / 6 + x ^ 4 * (5 / 96) := by
  have hb := Real.sin_bound (by rw [abs_of_nonneg h0]; exact h1)
  rw [abs_of_nonneg h0] at hb
  have hab := abs_le.mp hb
  linarith [hab.2]

/-- Quadratic Taylor lower bound for `cos` on `[0, 1]`. -/
theorem cos_ge_poly (x : ℝ) (h0 : 0 ≤ x) (h1 : x ≤ 1) :
    1 - x ^ 2 / 2 - x ^ 4 * (5 / 96) ≤ Real.cos x := by
  have hb := Real.cos_bound (by rw [abs_of_nonneg h0]; exact h1)
  rw [abs_of_nonneg h0] at hb
  have hab := abs_le.mp hb
  linarith [hab.1]

/-- Quadratic Taylor upper bound for `cos` on `[0, 1]`. -/
theorem cos_le_poly (x : ℝ) (h0 : 0 ≤ x) (h1 : x ≤ 1) :
    Real.cos x ≤ 1 - x ^ 2 / 2 + x ^ 4 * (5 / 96) := by
  have hb := Real.cos_bound (by rw [abs_of_nonneg h0]; exact h1)
  rw [abs_of_nonneg h0] at hb
  have hab := abs_le.mp hb
  linarith [hab.2]

/-- Interval bounds for `sin` from rational bounds on the argument,
inside `[0, 1]`. -/
theorem sin_interval (x l u : ℝ) (hl : l ≤ x) (hu : x ≤ u) (h0 : 0 ≤ l) (h1 : u ≤ 1) :
    l - u ^ 3 / 6 - u ^ 4 * (5 / 96) ≤ Real.sin x ∧
      Real.sin x ≤ u - l ^ 3 / 6 + u ^ 4 * (5 / 96) := by
  have hx0 : 0 ≤ x := le_trans h0 hl
  have hx1 : x ≤ 1 := le_trans hu h1
  have hg := sin_ge_poly x hx0 hx1
  have hle := sin_le_poly x hx0 hx1
  have p3u : x ^ 3 ≤ u ^ 3 := pow_le_pow_left hx0 hu 3
  have p3l : l ^ 3 ≤ x ^ 3 := pow_le_pow_left h0 hl 3
  have p4u : x ^ 4 ≤ u ^ 4 := pow_le_pow_left hx0 hu 4
  have p40 : 0 ≤ x ^ 4 := pow_nonneg hx0 4
  exact ⟨by linarith, by linarith⟩

/-- Double-angle identity in the form used by the half-angle bounds. -/
theorem cos_double_sin (x : ℝ) : Real.cos (2 * x) = 1 - 2 * Real.sin x ^ 2 := by
  rw [Real.cos_two_mul', Real.cos_sq']
  ring

/-- Bounds for `sin` at half the absolute latitude difference. -/
theorem sin_x1_bounds :
    0.0073791833 ≤ Real.sin (1057 * π / 450000) ∧
      Real.sin (1057 * π / 450000) ≤ 0.0073791861 := by
  have h := sin_interval (1057 * π / 450000) 0.0073792505 0.0073792529
    (by nlinarith [Real.pi_gt_d6]) (by nlinarith [Real.pi_lt_d6]) (by norm_num) (by norm_num)
  exact ⟨le_trans (by norm_num) h.1, le_trans h.2 (by norm_num)⟩

/-- Bounds for `sin` at half the longitude difference. -/
theorem sin_x2_bounds :
    0.0551073957 ≤ Real.sin (63181 * π / 3600000) ∧
      Real.sin (63181 * π / 3600000) ≤ 0.0551083762 := by
  have h := sin_interval (63181 * π / 3600000) 0.0551358122 0.0551358299
    (by nlinarith [Real.pi_gt_d6]) (by nlinarith [Real.pi_lt_d6]) (by norm_num) (by norm_num)
  exact ⟨le_trans (by norm_num) h.1, le_trans h.2 (by norm_num)⟩

/-- Bounds for `sin` at half the store latitude (in radians). -/
theorem sin_y1_bounds :
    0.3072116066 ≤ Real.sin (44807 * π / 450000) ∧
      Real.sin (44807 * π / 450000) ≤ 0.3082090940 := by
  have h := sin_interval (44807 * π / 450000) 0.3128118060 0.3128119057
    (by nlinarith [Real.pi_gt_d6]) (by nlinarith [Real.pi_lt_d6]) (by norm_num) (by norm_num)
  exact ⟨le_trans (by norm_num) h.1, le_trans h.2 (by norm_num)⟩

/-- Bounds for `sin` at half the destination latitude (in radians). -/
theorem sin_y2_bounds :
    0.3002303585 ≤ Real.sin (7 * π / 72) ∧ Real.sin (7 * π / 72) ≤ 0.3011370080 := by
  have h := sin_interval (7 * π / 72) 0.3054325555 0.3054326528
    (by nlinarith [Real.pi_gt_d6]) (by nlinarith [Real.pi_lt_d6]) (by norm_num) (by norm_num)
  exact ⟨le_trans (by norm_num) h.1, le_trans h.2 (by norm_num)⟩

/-- Bounds for the cosine of the store latitude, via the half angle. -/
theorem cos_lat1_bounds :
    0.8100143087 ≤ Real.cos (44807 * π / 225000) ∧
      Real.cos (44807 * π / 225000) ≤ 0.8112420576 := by
  have hs := sin_y1_bounds
  have hs0 : 0 ≤ Real.sin (44807 * π / 450000) := le_trans (by norm_num) hs.1
  have e : (44807 : ℝ) * π / 225000 = 2 * (44807 * π / 450000) := by ring
  rw [e, cos_double_sin]
  constructor
  · nlinarith [mul_le_mul hs.2 hs.2 hs0 (by norm_num : (0 : ℝ) ≤ 0.3082090940)]
  · nlinarith [mul_le_mul hs.1 hs.1 (by norm_num : (0 : ℝ) ≤ 0.3072116066) hs0]

/-- Bounds for the cosine of the destination latitude, via the half
angle. -/
theorem cos_lat2_bounds :
    0.8186330048 ≤ Real.cos (7 * π / 36) ∧ Real.cos (7 * π / 36) ≤ 0.8197234637 := by
  have hs := sin_y2_bounds
  have hs0 : 0 ≤ Real.sin (7 * π / 72) := le_trans (by norm_num) hs.1
  have e : (7 : ℝ) * π / 36 = 2 * (7 * π / 72) := by ring
  rw [e, cos_double_sin]
  constructor
  · nlinarith [mul_le_mul hs.2 hs.2 hs0 (by norm_num : (0 : ℝ) ≤ 0.3011370080)]
  · nlinarith [mul_le_mul hs.1 hs.1 (by norm_num : (0 : ℝ) ≤ 0.3002303585) hs0]

/-- Interval bounds for the haversine quantity `a` in fallback mode. -/
theorem fallbackA_bounds : 0.0020681844 ≤ fallbackA ∧ fallbackA ≤ 0.0020739953 := by
  unfold fallbackA
  obtain ⟨h1l, h1u⟩ := sin_x1_bounds
  obtain ⟨h2l, h2u⟩ := sin_x2_bounds
  obtain ⟨hc1l, hc1u⟩ := cos_lat1_bounds
  obtain ⟨hc2l, hc2u⟩ := cos_lat2_bounds
  have h10 : (0 : ℝ) ≤ Real.sin (1057 * π / 450000) := le_trans (by norm_num) h1l
  have h20 : (0 : ℝ) ≤ Real.sin (63181 * π / 3600000) := le_trans (by norm_num) h2l
  have hc10 : (0 : ℝ) ≤ Real.cos (44807 * π / 225000) := le_trans (by norm_num) hc1l
  have hc20 : (0 : ℝ) ≤ Real.cos (7 * π / 36) := le_trans (by norm_num) hc2l
  have t1l : (0.0000544523 : ℝ) ≤
      Real.sin (1057 * π / 450000) * Real.sin (1057 * π / 450000) := by
    nlinarith [mul_le_mul h1l h1l (by norm_num : (0 : ℝ) ≤ 0.0073791833) h10]
  have t1u : Real.sin (1057 * π / 450000) * Real.sin (1057 * π / 450000) ≤
      (0.0000544524 : ℝ) := by
    nlinarith [mul_le_mul h1u h1u h10 (by norm_num : (0 : ℝ) ≤ 0.0073791861)]
  have t2l : (0.0030368250 : ℝ) ≤
      Real.sin (63181 * π / 3600000) * Real.sin (63181 * π / 3600000) := by
    nlinarith [mul_le_mul h2l h2l (by norm_num : (0 : ℝ) ≤ 0.0551073957) h20]
  have t2u : Real.sin (63181 * π / 3600000) * Real.sin (63181 * π / 3600000) ≤
      (0.0030369332 : ℝ) := by
    nlinarith [mul_le_mul h2u h2u h20 (by norm_num : (0 : ℝ) ≤ 0.0551083762)]
  have cpl : (0.6631044474 : ℝ) ≤
      Real.cos (44807 * π / 225000) * Real.cos (7 * π / 36) := by
    nlinarith [mul_le_mul hc1l hc2l (by norm_num : (0 : ℝ) ≤ 0.8186330048) hc10]
  have cpu : Real.cos (44807 * π / 225000) * Real.cos (7 * π / 36) ≤
      (0.6649941494 : ℝ) := by
    nlinarith [mul_le_mul hc1u hc2u hc20 (by norm_num : (0 : ℝ) ≤ 0.8112420576)]
  have hp0 : (0 : ℝ) ≤ Real.cos (44807 * π / 225000) * Real.cos (7 * π / 36) :=
    mul_nonneg hc10 hc20
  have ht0 : (0 : ℝ) ≤ Real.sin (63181 * π / 3600000) * Real.sin (63181 * π / 3600000) :=
    mul_nonneg h20 h20
  have cptl : (0.0020137321 : ℝ) ≤
      (Real.cos (44807 * π / 225000) * Real.cos (7 * π / 36)) *
        (Real.sin (63181 * π / 3600000) * Real.sin (63181 * π / 3600000)) := by
    nlinarith [mul_le_mul cpl t2l (by norm_num : (0 : ℝ) ≤ 0.0030368250) hp0]
  have cptu : (Real.cos (44807 * π / 225000) * Real.cos (7 * π / 36)) *
        (Real.sin (63181 * π / 3600000) * Real.sin (63181 * π / 3600000)) ≤
      (0.0020195429 : ℝ) := by
    nlinarith [mul_le_mul cpu t2u ht0 (by norm_num : (0 : ℝ) ≤ 0.6649941494)]
  have hshape : Real.cos (44807 * π / 225000) * Real.cos (7 * π / 36) *
      Real.sin (63181 * π / 3600000) * Real.sin (63181 * π / 3600000) =
      (Real.cos (44807 * π / 225000) * Real.cos (7 * π / 36)) *
        (Real.sin (63181 * π / 3600000) * Real.sin (63181 * π / 3600000)) := by
    ring
  rw [hshape]
  constructor
  · linarith [t1l, cptl]
  · linarith [t1u, cptu]

/-- Interval bounds for `√a` in fallback mode. -/
theorem sqrtA_bounds :
    0.0454772954 ≤ Real.sqrt fallbackA ∧ Real.sqrt fallbackA ≤ 0.0455411386 := by
  have hA := fallbackA_bounds
  constructor
  · refine (Real.le_sqrt (by norm_num) (by linarith [hA.1])).mpr ?_
    nlinarith [hA.1]
  · refine Real.sqrt_le_iff.mpr ⟨by norm_num, ?_⟩
    nlinarith [hA.2]

/-- Interval bounds for `√(1 - a)` in fallback mode. -/
theorem sqrtQ_bounds :
    0.9989624641 ≤ Real.sqrt (1 - fallbackA) ∧ Real.sqrt (1 - fallbackA) ≤ 0.9989653726 := by
  have hA := fallbackA_bounds
  constructor
  · refine (Real.le_sqrt (by norm_num) (by linarith [hA.2])).mpr ?_
    nlinarith [hA.2]
  · refine Real.sqrt_le_iff.mpr ⟨by norm_num, ?_⟩
    nlinarith [hA.1]

/-- Interval bounds for the `atan2` ratio `√a / √(1-a)` in fallback
mode. -/
theorem ratio_bounds :
    0.0455243961 ≤ Real.sqrt fallbackA / Real.sqrt (1 - fallbackA) ∧
      Real.sqrt fallbackA / Real.sqrt (1 - fallbackA) ≤ 0.0455884383 := by
  have hs := sqrtA_bounds
  have hq := sqrtQ_bounds
  have hqpos : 0 < Real.sqrt (1 - fallbackA) := by linarith [hq.1]
  constructor
  · rw [le_div_iff hqpos]
    nlinarith [hq.2, hs.1]
  · rw [div_le_iff hqpos]
    nlinarith [hq.1, hs.2]

/-- Lower bound on the arctangent of the fallback ratio, via the
monotonicity of `arctan` against an explicit tangent value. -/
theorem arctan_ratio_lower :
    0.0454927458 ≤ Real.arctan (Real.sqrt fallbackA / Real.sqrt (1 - fallbackA)) := by
  have hr := ratio_bounds
  have hL2 : -(π / 2) < (0.0454927458 : ℝ) := by nlinarith [Real.pi_gt_d6]
  have hL3 : (0.0454927458 : ℝ) < π / 2 := by nlinarith [Real.pi_gt_d6]
  have hsin_hi := sin_le_poly (0.0454927458 : ℝ) (by norm_num) (by norm_num)
  have hcos_ge := cos_ge_poly (0.0454927458 : ℝ) (by norm_num) (by norm_num)
  have hcos_pos : 0 < Real.cos (0.0454927458 : ℝ) := by nlinarith [hcos_ge]
  have hr0 : (0 : ℝ) ≤ Real.sqrt fallbackA / Real.sqrt (1 - fallbackA) :=
    le_trans (by norm_num) hr.1
  have htan : Real.tan (0.0454927458 : ℝ) ≤
      Real.sqrt fallbackA / Real.sqrt (1 - fallbackA) := by
    rw [Real.tan_eq_sin_div_cos, div_le_iff hcos_pos]
    nlinarith [mul_le_mul hr.1 hcos_ge (by norm_num :
      (0 : ℝ) ≤ 1 - 0.0454927458 ^ 2 / 2 - 0.0454927458 ^ 4 * (5 / 96)) hr0, hsin_hi]
  calc (0.0454927458 : ℝ) = Real.arctan (Real.tan (0.0454927458 : ℝ)) :=
      (Real.arctan_tan hL2 hL3).symm
    _ ≤ _ := Real.arctan_strictMono.monotone htan

/-- Upper bound on the arctangent of the fallback ratio. -/
theorem arctan_ratio_upper :
    Real.arctan (Real.sqrt fallbackA / Real.sqrt (1 - fallbackA)) ≤ 0.0455571254 := by
  have hr := ratio_bounds
  have hU2 : -(π / 2) < (0.0455571254 : ℝ) := by nlinarith [Real.pi_gt_d6]
  have hU3 : (0.0455571254 : ℝ) < π / 2 := by nlinarith [Real.pi_gt_d6]
  have hsin_ge := sin_ge_poly (0.0455571254 : ℝ) (by norm_num) (by norm_num)
  have hcos_le := cos_le_poly (0.0455571254 : ℝ) (by norm_num) (by norm_num)
  have hcos_ge := cos_ge_poly (0.0455571254 : ℝ) (by norm_num) (by norm_num)
  have hcos_pos : 0 < Real.cos (0.0455571254 : ℝ) := by nlinarith [hcos_ge]
  have htan : Real.sqrt fallbackA / Real.sqrt (1 - fallbackA) ≤
      Real.tan (0.0455571254 : ℝ) := by
    rw [Real.tan_eq_sin_div_cos, le_div_iff hcos_pos]
    nlinarith [mul_le_mul hr.2 hcos_le hcos_pos.le (by norm_num : (0 : ℝ) ≤ 0.0455884383),
      hsin_ge]
  calc Real.arctan (Real.sqrt fallbackA / Real.sqrt (1 - fallbackA)) ≤
      Real.arctan (Real.tan (0.0455571254 : ℝ)) := Real.arctan_strictMono.monotone htan
    _ = _ := Real.arctan_tan hU2 hU3

/-- The fallback-mode distance expressed through `fallbackA`. -/
theorem calculateDistance_fallback_eq :
    calculateDistance STORE_LOCATION.lat STORE_LOCATION.lng 35 (-97) =
      3959 * (2 * Real.arctan (Real.sqrt fallbackA / Real.sqrt (1 - fallbackA))) := by
  have hA := fallbackA_bounds
  have h1mA : 0 < 1 - fallbackA := by linarith [hA.2]
  simp only [calculateDistance, STORE_LOCATION]
  rw [show ((35 : ℝ) - 35.8456) * π / 180 / 2 = -(1057 * π / 450000) by
    rw [show ((35 : ℝ) - 35.8456) = -(1057 / 1250) by norm_num]; ring]
  rw [Real.sin_neg]
  rw [show (35.8456 : ℝ) * π / 180 = 44807 * π / 225000 by
    rw [show (35.8456 : ℝ) = 44807 / 1250 by norm_num]; ring]
  rw [show (35 : ℝ) * π / 180 = 7 * π / 36 by ring]
  rw [show ((-97 : ℝ) - -103.3181) * π / 180 / 2 = 63181 * π / 3600000 by
    rw [show ((-97 : ℝ) - -103.3181) = 63181 / 10000 by norm_num]; ring]
  rw [show -Real.sin (1057 * π / 450000) * -Real.sin (1057 * π / 450000) +
      Real.cos (44807 * π / 225000) * Real.cos (7 * π / 36) *
      Real.sin (63181 * π / 3600000) * Real.sin (63181 * π / 3600000) = fallbackA by
    unfold fallbackA; ring]
  unfold atan2
  rw [if_pos (Real.sqrt_pos.mpr h1mA)]

/-- Two-sided numeric bounds on the fallback-mode distance. -/
theorem fallback_distance_bounds :
    360.2115 ≤ calculateDistance STORE_LOCATION.lat STORE_LOCATION.lng 35 (-97) ∧
      calculateDistance STORE_LOCATION.lat STORE_LOCATION.lng 35 (-97) ≤ 360.7214 := by
  rw [calculateDistance_fallback_eq]
  have h1 := arctan_ratio_lower
  have h2 := arctan_ratio_upper
  constructor
  · nlinarith [h1]
  · nlinarith [h2]

/-- Counterexample for C7: at the default store location and the
geocoding fallback coordinate (35, -97), `calculateDistance` exceeds
360 miles — more than 7 miles above the claimed ≈ 353, far outside any
formula tolerance. -/
theorem C7_counterexample :
    353 + 7 < calculateDistance STORE_LOCATION.lat STORE_LOCATION.lng 35 (-97) := by
  have h := fallback_distance_bounds
  linarith [h.1]

/-- C7 (amended): with no geocoding credential the destination falls
back to the hardcoded coordinate (35, -97), and the distance from the
default store location to it is ≈ 360.5 miles (strictly between 360 and
361), not ≈ 353. -/
theorem C7_fallback_distance :
    (∀ (fetch : String → Option (ℝ × ℝ)) (address : String),
      geocodeAddress none fetch address = some (35.0, -97.0)) ∧
    360 < calculateDistance STORE_LOCATION.lat STORE_LOCATION.lng 35 (-97) ∧
    calculateDistance STORE_LOCATION.lat STORE_LOCATION.lng 35 (-97) < 361 := by
  have h := fallback_distance_bounds
  exact ⟨fun fetch address => rfl, by linarith [h.1], by linarith [h.2]⟩
